import Mathlib

/-!
# A shallow embedding of the `pester` resilient HTTP client (src/main.go)

`pester` wraps the Go standard HTTP client with retries, concurrency and
backoff.  This file embeds the parts of `src/main.go` that the verified
properties talk about:

* the backoff strategies (`DefaultBackoff`, `LinearBackoff`,
  `ExponentialBackoff` and the jittered variants built on `jitter`);
* the retry loop run by each worker goroutine inside `Client.pester`
  (lines 219-276 of `src/main.go`), including outcome classification,
  error synthesis from the HTTP status text, `ErrEntry` logging and the
  final `result` sent on the channel;
* the sequential prefix of `Client.pester` (effective concurrency,
  body buffering with early return on a read error, lines 186-217);
* the orchestrator's receipt of the winning `result` (lines 278-286);
* `Client.LogString`, `Client.log`'s `KeepLog` branch, `New` and
  `DefaultClient`.

Modelling conventions:

* Go `time.Duration` is a 64-bit signed count of nanoseconds; arithmetic
  on it wraps.  We model durations as `Int` and apply `wrap64` wherever
  Go multiplies or converts into `time.Duration`.
* Go integer division truncates toward zero: `Int.tdiv`.
* `math/rand` draws are passed in explicitly: `jitter` takes the value
  returned by `rand.Intn(maxJitter+1)` and the add/subtract coin as
  arguments, so theorems quantify over every possible draw.
* The transport (`http.Client.Do/Get/Head/Post/PostForm`) is an oracle
  `Nat → Option String × HTTPResponse` giving, for each attempt index of
  a worker, the `(err, resp)` pair the Go call would return (`none`
  means a nil transport error).  Errors are modelled by their message
  string (the value of `Error()`).
* Wall-clock time is not modelled: `ErrEntry.time` is the unix-seconds
  stamp; entries created inside the worker model carry `0` (no verified
  property depends on the stamp's value, only on its formatting).
* `Client.pester` spawns `concurrency` identical workers racing on a
  channel.  `pesterRun` models the deterministic single-worker execution
  that the code performs whenever the effective concurrency is 1 (every
  non-GET verb, and every client with `Concurrency = 1`, in particular
  every client built by `New`, whose `Concurrency` is 1).  The behaviour
  of an individual worker and the orchestrator's handling of an
  arbitrary winning result are modelled separately (`runWorker`,
  `finishPester`) so that multi-worker properties about the winning
  outcome can be stated without modelling the race itself.
* `Client` keeps the fields the verified properties read or write
  (`Concurrency`, `MaxRetries`, `KeepLog`, `LogRetries`,
  `SuccessReqNum`, `SuccessRetryNum`, `ErrLog`).  The embedded
  `http.Client`, the external-logger fields and `Backoff` (which only
  determines sleep lengths between attempts, never a returned value)
  are omitted from the state.
* `params` keeps `method`, `verb`, `url` and the two body sources
  (`req.Body` and the `body` reader); `bodyType` and the form `data`
  never influence a verified property and are omitted.
-/

namespace Pester

/-- Two's-complement wrap into the range of a signed 64-bit integer,
modelling overflow of Go's `int` / `time.Duration` arithmetic. -/
def wrap64 (n : Int) : Int :=
  (n + 2 ^ 63) % 2 ^ 64 - 2 ^ 63

/-- The value of `time.Second` in nanoseconds. -/
def second : Int := 1000000000

/-- The value of `time.Millisecond` in nanoseconds. -/
def millisecond : Int := 1000000

/-- The part of `*http.Response` that `pester` reads: `StatusCode` and
the status text `Status`. -/
structure HTTPResponse where
  statusCode : Int
  status : String
deriving DecidableEq

/-- The zero-value `&http.Response{}` each worker starts from
(line 221 of src/main.go). -/
def emptyResponse : HTTPResponse := { statusCode := 0, status := "" }

/-- The record `ErrEntry` (lines 81-89 of src/main.go).  `time` is the unix-seconds
value `Time.Unix()` used by `LogString`; `err` is the error's message. -/
structure ErrEntry where
  time : Int
  method : String
  url : String
  verb : String
  request : Int
  retry : Int
  err : String
deriving DecidableEq

/-- The channel message `result` (lines 92-97 of src/main.go).  `err` is
`none` for a nil error. -/
structure Result where
  resp : HTTPResponse
  err : Option String
  req : Int
  retry : Int
deriving DecidableEq

/-- A request/body byte source as seen by `ioutil.ReadAll`: absent
(`nil`), fully readable, or failing with an error. -/
inductive BodySrc where
  | nobody : BodySrc
  | ok (bytes : List Nat) : BodySrc
  | failing (msg : String) : BodySrc
deriving DecidableEq

/-- Reading a `BodySrc` as `ioutil.ReadAll` does.  A `nil` body is never read in the
Go code (the surrounding `if` skips it), which is the same as reading
nothing. -/
def readAll : BodySrc → Except String (List Nat)
  | BodySrc.nobody => Except.ok []
  | BodySrc.ok bs => Except.ok bs
  | BodySrc.failing msg => Except.error msg

/-- The struct `params` (lines 100-108 of src/main.go), restricted to the fields the
verified properties depend on. -/
structure Params where
  method : String
  verb : String
  url : String
  reqBody : BodySrc
  body : BodySrc
deriving DecidableEq

/-- The pester-specific `Client` state (lines 40-77 of src/main.go). -/
structure Client where
  Concurrency : Int
  MaxRetries : Int
  KeepLog : Bool
  LogRetries : Bool
  SuccessReqNum : Int
  SuccessRetryNum : Int
  ErrLog : List ErrEntry
deriving DecidableEq

/-- The package variable `DefaultClient` (line 128): `{Concurrency: 1, MaxRetries: 3,
Backoff: DefaultBackoff, ErrLog: []ErrEntry{}}`; every unassigned field
takes its Go zero value. -/
def DefaultClient : Client :=
  { Concurrency := 1, MaxRetries := 3, KeepLog := false, LogRetries := false,
    SuccessReqNum := 0, SuccessRetryNum := 0, ErrLog := [] }

/-- The constructor `New` (lines 111-122): copies `Concurrency`, `MaxRetries` and
`ErrLog` from `DefaultClient` and sets `LogRetries: true`; `KeepLog` is
not assigned, so it is the zero value `false`. -/
def New : Client :=
  { Concurrency := DefaultClient.Concurrency,
    MaxRetries := DefaultClient.MaxRetries,
    KeepLog := false, LogRetries := true,
    SuccessReqNum := 0, SuccessRetryNum := 0,
    ErrLog := DefaultClient.ErrLog }

/-- Go function `DefaultBackoff` (lines 131-133): `1 * time.Second`. -/
def DefaultBackoff (_ : Int) : Int := wrap64 (1 * second)

/-- Go function `LinearBackoff` (lines 147-149): `time.Duration(i) * time.Second`,
a 64-bit multiplication. -/
def LinearBackoff (i : Int) : Int := wrap64 (i * second)

/-- Models `int(math.Pow(2, float64(i)))`: powers of two up to `2^62` are exact
in `float64` and fit in `int64`; a negative exponent yields a value in
`(0,1)` that truncates to `0`; a conversion whose value exceeds the
`int64` range is implementation-specific in Go and produces
`math.MinInt64` on the common amd64 implementation. -/
def pow2AsInt64 (i : Int) : Int :=
  if i < 0 then 0
  else if i ≤ 62 then 2 ^ i.toNat
  else -(2 ^ 63)

/-- Go function `ExponentialBackoff` (lines 136-138):
`time.Duration(math.Pow(2, float64(i))) * time.Second`. -/
def ExponentialBackoff (i : Int) : Int := wrap64 (pow2AsInt64 i * second)

/-- The body of `jitter` (lines 158-177) up to the final conversion to
`time.Duration`: the millisecond count it computes.  `i` is the argument,
`j` the draw `rand.Intn(maxJitter+1)` (so `0 ≤ j ≤ maxJitter` for every
real execution), and `add` the coin `rand.Intn(2) == 1`. -/
def jitterMs (i j : Int) (add : Bool) : Int :=
  let ms := wrap64 (i * 1000)
  let ms1 := if add then wrap64 (ms + j) else wrap64 (ms - j)
  if ms1 ≤ 0 then 1 else ms1

/-- The bound `maxJitter := ms / 3` of `jitter` (line 161), with Go's
truncating integer division. -/
def maxJitterOf (i : Int) : Int := Int.tdiv (wrap64 (i * 1000)) 3

/-- Go function `jitter` (lines 158-177): `time.Duration(ms) * time.Millisecond`. -/
def jitter (i j : Int) (add : Bool) : Int :=
  wrap64 (jitterMs i j add * millisecond)

/-- Go function `LinearJitterBackoff` (lines 153-155): `jitter(i)`. -/
def LinearJitterBackoff (i j : Int) (add : Bool) : Int := jitter i j add

/-- Go function `ExponentialJitterBackoff` (lines 142-144):
`jitter(int(math.Pow(2, float64(i))))`. -/
def ExponentialJitterBackoff (i j : Int) (add : Bool) : Int :=
  jitter (pow2AsInt64 i) j add

/-- The success test of line 252: `err == nil && resp.StatusCode < 400`. -/
def attemptSuccess (err : Option String) (resp : HTTPResponse) : Bool :=
  err.isNone && decide (resp.statusCode < 400)

/-- The error recorded for a failed attempt (lines 257-259): the
transport error if there was one, otherwise `fmt.Errorf("%v",
resp.Status)` synthesized from the status text. -/
def classifyErr (err : Option String) (resp : HTTPResponse) : String :=
  match err with
  | some m => m
  | none => resp.status

/-- The `ErrEntry` built at lines 261-269 for worker `n`, retry `i`.
`time.Now()` is not modelled; the stamp is `0`. -/
def mkEntry (p : Params) (n : Int) (i : Nat) (e : String) : ErrEntry :=
  { time := 0, method := p.method, verb := p.verb, url := p.url,
    request := n, retry := (i : Int), err := e }

/-- What one worker's run produces: the `result` it sends on the channel,
the `ErrEntry` list it appended to `c.ErrLog` (in order), and how many
HTTP attempts it performed. -/
structure WorkerRun where
  result : Result
  entries : List ErrEntry
  attempts : Nat
deriving DecidableEq

/-- The retry loop of one worker goroutine (lines 224-274 of
src/main.go), never observing a cancellation signal.  `i` is the loop
variable, `fuel` the remaining iterations (`c.MaxRetries - i`), and
`resp`/`err` the mutable locals of lines 221-222.  On success the worker
sends `result{resp, err, n, i}` (line 253); after the loop it sends
`result{resp: resp, err: err}` whose `req` and `retry` fields are the Go
zero value `0` (line 274). -/
def workerLoop (oracle : Nat → Option String × HTTPResponse) (p : Params)
    (keepLog : Bool) (n : Int) (i : Nat) (fuel : Nat)
    (resp : HTTPResponse) (err : Option String)
    (log : List ErrEntry) (att : Nat) : WorkerRun :=
  match fuel with
  | 0 => { result := { resp := resp, err := err, req := 0, retry := 0 },
           entries := log, attempts := att }
  | Nat.succ fuel' =>
    let er := oracle i
    if attemptSuccess er.1 er.2 then
      { result := { resp := er.2, err := er.1, req := n, retry := (i : Int) },
        entries := log, attempts := att + 1 }
    else
      let e' := classifyErr er.1 er.2
      let log' := if keepLog then log ++ [mkEntry p n i e'] else log
      workerLoop oracle p keepLog n (i + 1) fuel' er.2 (some e') log' (att + 1)

/-- A full worker run: the loop entered at `i = 0` with the zero-value
response and nil error; the loop bound is `c.MaxRetries` (no iteration
when it is `≤ 0`). -/
def runWorker (oracle : Nat → Option String × HTTPResponse) (p : Params)
    (keepLog : Bool) (n : Int) (maxRetries : Int) : WorkerRun :=
  workerLoop oracle p keepLog n 0 maxRetries.toNat emptyResponse none [] 0

/-- Lines 278-286 of `Client.pester`: on the first `result` received,
record `SuccessReqNum`/`SuccessRetryNum` from its `req`/`retry` fields
and return `(res.resp, res.err)`. -/
def finishPester (c : Client) (res : Result) :
    Client × HTTPResponse × Option String :=
  ({ c with SuccessReqNum := res.req, SuccessRetryNum := res.retry },
   res.resp, res.err)

/-- The effective concurrency of lines 188-191: the configured
`c.Concurrency`, overwritten with `1` whenever `p.verb != "GET"`. -/
def effectiveConcurrency (c : Client) (p : Params) : Int :=
  if p.verb ≠ "GET" then 1 else c.Concurrency

/-- The concurrency rule as the specification states it: `1` unless the
verb is idempotent-safe (`GET` or `HEAD`) and the configured value
exceeds `1`.  Stated from the spec's words, for comparison with
`effectiveConcurrency`. -/
def claimedEffectiveConcurrency (verb : String) (configured : Int) : Int :=
  if (verb = "GET" ∨ verb = "HEAD") ∧ configured > 1 then configured else 1

/-- The outcome of one `Client.pester` call along the deterministic
single-worker path: final client state, returned response and error,
workers spawned and HTTP attempts made. -/
structure PesterRun where
  client : Client
  resp : HTTPResponse
  err : Option String
  workers : Nat
  attempts : Nat
deriving DecidableEq

/-- The body of `Client.pester` (lines 181-287) on the deterministic single-worker
path (effective concurrency 1, i.e. any non-GET verb or `Concurrency`
configured to 1, as in every client built by `New`).  First the two body
sources are buffered (lines 201-217), returning
`(&http.Response{}, errors.New(...))` immediately on a read error; then
the single worker runs to its first emitted `result`, its `ErrEntry`s
having been appended to `c.ErrLog` (only when `KeepLog` is set, the
`c.log` branch of lines 338-342); finally the orchestrator records the
winner (lines 278-286). -/
def pesterRun (c : Client) (p : Params)
    (oracle : Nat → Option String × HTTPResponse) : PesterRun :=
  match readAll p.reqBody with
  | Except.error _ =>
    { client := c, resp := emptyResponse,
      err := some "error reading request body", workers := 0, attempts := 0 }
  | Except.ok _ =>
    match readAll p.body with
    | Except.error _ =>
      { client := c, resp := emptyResponse,
        err := some "error reading body", workers := 0, attempts := 0 }
    | Except.ok _ =>
      let w := runWorker oracle p c.KeepLog 0 c.MaxRetries
      let logged := { c with ErrLog := c.ErrLog ++ w.entries }
      let fin := finishPester logged w.result
      { client := fin.1, resp := fin.2.1, err := fin.2.2,
        workers := 1, attempts := w.attempts }

/-- The `params` built by `Client.Do` (line 347): `method "Do"`, verb
taken from the request's own method. -/
def doParams (reqMethod u : String) (rb : BodySrc) : Params :=
  { method := "Do", verb := reqMethod, url := u,
    reqBody := rb, body := BodySrc.nobody }

/-- The `params` built by `Client.Get` (line 352). -/
def getParams (u : String) : Params :=
  { method := "Get", verb := "GET", url := u,
    reqBody := BodySrc.nobody, body := BodySrc.nobody }

/-- The `params` built by `Client.Head` (line 357). -/
def headParams (u : String) : Params :=
  { method := "Head", verb := "HEAD", url := u,
    reqBody := BodySrc.nobody, body := BodySrc.nobody }

/-- The `params` built by `Client.Post` (line 362); the body reader is
the `body` source. -/
def postParams (u : String) (b : BodySrc) : Params :=
  { method := "Post", verb := "POST", url := u,
    reqBody := BodySrc.nobody, body := b }

/-- The `params` built by `Client.PostForm` (line 367). -/
def postFormParams (u : String) : Params :=
  { method := "PostForm", verb := "POST", url := u,
    reqBody := BodySrc.nobody, body := BodySrc.nobody }

/-- One line of `Client.LogString` (lines 293-294):
`fmt.Sprintf("%d %s [%s] to %s request-%d retry-%d error: %s\n", ...)`. -/
def fmtErrEntry (e : ErrEntry) : String :=
  toString e.time ++ " " ++ e.method ++ " [" ++ e.verb ++ "] to " ++
  e.url ++ " request-" ++ toString e.request ++ " retry-" ++
  toString e.retry ++ " error: " ++ e.err ++ "\n"

/-- Go method `Client.LogString` (lines 290-297): starts from the empty string and
appends one formatted line per `ErrLog` entry, in order. -/
def LogString (c : Client) : String :=
  c.ErrLog.foldl (fun res e => res ++ fmtErrEntry e) ""

/-- The `ErrLog` effect of `Client.log` (lines 338-342): append the
entry exactly when `KeepLog` is set.  (The `LogRetries` branch only
writes to external sinks and never touches `ErrLog`.) -/
def Client.log (c : Client) (e : ErrEntry) : Client :=
  if c.KeepLog then { c with ErrLog := c.ErrLog ++ [e] } else c

/-- The package-level wrapper `Do` (lines 377-380): a fresh `New` client
runs the call. -/
def DoWrapper (reqMethod u : String) (rb : BodySrc)
    (oracle : Nat → Option String × HTTPResponse) : PesterRun :=
  pesterRun New (doParams reqMethod u rb) oracle

/-- The package-level wrapper `Get` (lines 383-386). -/
def GetWrapper (u : String)
    (oracle : Nat → Option String × HTTPResponse) : PesterRun :=
  pesterRun New (getParams u) oracle

/-- The package-level wrapper `Head` (lines 389-392). -/
def HeadWrapper (u : String)
    (oracle : Nat → Option String × HTTPResponse) : PesterRun :=
  pesterRun New (headParams u) oracle

/-- The package-level wrapper `Post` (lines 395-398). -/
def PostWrapper (u : String) (b : BodySrc)
    (oracle : Nat → Option String × HTTPResponse) : PesterRun :=
  pesterRun New (postParams u b) oracle

/-- The package-level wrapper `PostForm` (lines 401-404). -/
def PostFormWrapper (u : String)
    (oracle : Nat → Option String × HTTPResponse) : PesterRun :=
  pesterRun New (postFormParams u) oracle

/-- Every attempt with index `< N` of the oracle fails the success test
of line 252. -/
def allFail (oracle : Nat → Option String × HTTPResponse) (N : Nat) : Prop :=
  ∀ i < N, attemptSuccess (oracle i).1 (oracle i).2 = false

/-- No string field interpolated into a `LogString` line contains a
newline (true of every value Go's `%d`/`%s` produce for real entries
whose message, method, verb and URL are newline-free). -/
def newlineFree (e : ErrEntry) : Prop :=
  '\n' ∉ (toString e.time).data ∧ '\n' ∉ e.method.data ∧
  '\n' ∉ e.verb.data ∧ '\n' ∉ e.url.data ∧
  '\n' ∉ (toString e.request).data ∧ '\n' ∉ (toString e.retry).data ∧
  '\n' ∉ e.err.data

instance (e : ErrEntry) : Decidable (newlineFree e) := by
  unfold newlineFree
  infer_instance

/-- A concrete client with two recorded failures, used to evaluate
`LogString` on a populated log. -/
def sampleLogClient : Client :=
  { Concurrency := 1, MaxRetries := 3, KeepLog := true, LogRetries := false,
    SuccessReqNum := 0, SuccessRetryNum := 0,
    ErrLog :=
      [ { time := 1700000000, method := "Get", url := "http://a", verb := "GET",
          request := 0, retry := 0, err := "connection refused" },
        { time := 1700000001, method := "Post", url := "http://b", verb := "POST",
          request := 0, retry := 1, err := "500 Internal Server Error" } ] }

end Pester

namespace Pester

/-- One failing iteration of the worker loop steps to the recursive call
with the classified error, the grown log and one more attempt. -/
theorem workerLoop_fail_step (oracle : Nat → Option String × HTTPResponse)
    (p : Params) (kl : Bool) (n : Int) (i fuel : Nat) (resp : HTTPResponse)
    (err : Option String) (log : List ErrEntry) (att : Nat)
    (h : attemptSuccess (oracle i).1 (oracle i).2 = false) :
    workerLoop oracle p kl n i (fuel + 1) resp err log att =
      workerLoop oracle p kl n (i + 1) fuel (oracle i).2
        (some (classifyErr (oracle i).1 (oracle i).2))
        (if kl then log ++ [mkEntry p n i (classifyErr (oracle i).1 (oracle i).2)] else log)
        (att + 1) := by
  simp only [workerLoop, h, Bool.false_eq_true, if_false]

/-- One successful iteration of the worker loop returns immediately with
the worker's index and current retry index in the `result`. -/
theorem workerLoop_success_step (oracle : Nat → Option String × HTTPResponse)
    (p : Params) (kl : Bool) (n : Int) (i fuel : Nat) (resp : HTTPResponse)
    (err : Option String) (log : List ErrEntry) (att : Nat)
    (h : attemptSuccess (oracle i).1 (oracle i).2 = true) :
    workerLoop oracle p kl n i (fuel + 1) resp err log att =
      { result := { resp := (oracle i).2, err := (oracle i).1,
                    req := n, retry := (i : Int) },
        entries := log, attempts := att + 1 } := by
  simp only [workerLoop, h, if_true]

end Pester

namespace Pester

/-- A run of the worker loop in which every remaining attempt fails:
the final `result` carries the last attempt's response and classified
error with zero `req`/`retry` tags, the log grows by one entry per
attempt in order, and every iteration performs one attempt. -/
theorem workerLoop_allFail_run (oracle : Nat → Option String × HTTPResponse)
    (p : Params) (n : Int) :
    ∀ (fuel i : Nat) (resp : HTTPResponse) (err : Option String)
      (log : List ErrEntry) (att : Nat),
      (∀ k, i ≤ k → k < i + (fuel + 1) →
        attemptSuccess (oracle k).1 (oracle k).2 = false) →
      workerLoop oracle p true n i (fuel + 1) resp err log att =
        { result := { resp := (oracle (i + fuel)).2,
                      err := some (classifyErr (oracle (i + fuel)).1 (oracle (i + fuel)).2),
                      req := 0, retry := 0 },
          entries := log ++ (List.range' i (fuel + 1)).map
            (fun k => mkEntry p n k (classifyErr (oracle k).1 (oracle k).2)),
          attempts := att + (fuel + 1) } := by
  intro fuel
  induction fuel with
  | zero =>
    intro i resp err log att h
    rw [workerLoop_fail_step oracle p true n i 0 resp err log att
      (h i (le_refl i) (by omega))]
    simp [workerLoop, List.range'_succ]
  | succ f ih =>
    intro i resp err log att h
    rw [workerLoop_fail_step oracle p true n i (f + 1) resp err log att
      (h i (le_refl i) (by omega))]
    rw [if_pos rfl]
    rw [ih (i + 1) (oracle i).2 (some (classifyErr (oracle i).1 (oracle i).2))
      (log ++ [mkEntry p n i (classifyErr (oracle i).1 (oracle i).2)]) (att + 1)
      (fun k hk1 hk2 => h k (by omega) (by omega))]
    have hidx : i + 1 + f = i + (f + 1) := by omega
    rw [hidx]
    have hrange : List.range' i (f + 1 + 1) = i :: List.range' (i + 1) (f + 1) :=
      List.range'_succ i (f + 1) 1
    rw [hrange]
    simp [List.append_assoc]
    omega

end Pester

namespace Pester

/-- If the attempts strictly before `i + k` fail and the attempt at
`i + k` succeeds within the remaining fuel, the loop returns the success
`result` tagged with the worker's index `n` and retry index `i + k`. -/
theorem workerLoop_firstSuccess_run (oracle : Nat → Option String × HTTPResponse)
    (p : Params) (kl : Bool) (n : Int) :
    ∀ (k fuel i : Nat) (resp : HTTPResponse) (err : Option String)
      (log : List ErrEntry) (att : Nat),
      k < fuel →
      (∀ j, i ≤ j → j < i + k → attemptSuccess (oracle j).1 (oracle j).2 = false) →
      attemptSuccess (oracle (i + k)).1 (oracle (i + k)).2 = true →
      (workerLoop oracle p kl n i fuel resp err log att).result =
        { resp := (oracle (i + k)).2, err := (oracle (i + k)).1,
          req := n, retry := ((i + k : Nat) : Int) } := by
  intro k
  induction k with
  | zero =>
    intro fuel i resp err log att hk hfail hsucc
    obtain ⟨f, rfl⟩ : ∃ f, fuel = f + 1 := ⟨fuel - 1, by omega⟩
    rw [workerLoop_success_step oracle p kl n i f resp err log att (by simpa using hsucc)]
    simp

  | succ k ih =>
    intro fuel i resp err log att hk hfail hsucc
    obtain ⟨f, rfl⟩ : ∃ f, fuel = f + 1 := ⟨fuel - 1, by omega⟩
    rw [workerLoop_fail_step oracle p kl n i f resp err log att
      (hfail i (le_refl i) (by omega))]
    have := ih f (i + 1) (oracle i).2 (some (classifyErr (oracle i).1 (oracle i).2))
      (if kl then log ++ [mkEntry p n i (classifyErr (oracle i).1 (oracle i).2)] else log)
      (att + 1) (by omega)
      (fun j hj1 hj2 => hfail j (by omega) (by omega))
      (by have h2 := hsucc; rw [show i + (k + 1) = i + 1 + k by omega] at h2; exact h2)
    rw [this]
    have hidx : i + 1 + k = i + (k + 1) := by omega
    rw [hidx]

/-- The worker loop only ever appends to the log it is given. -/
theorem workerLoop_entries_extend (oracle : Nat → Option String × HTTPResponse)
    (p : Params) (kl : Bool) (n : Int) :
    ∀ (fuel i : Nat) (resp : HTTPResponse) (err : Option String)
      (log : List ErrEntry) (att : Nat),
      ∃ tail, (workerLoop oracle p kl n i fuel resp err log att).entries = log ++ tail := by
  intro fuel
  induction fuel with
  | zero =>
    intro i resp err log att
    exact ⟨[], by simp [workerLoop]⟩
  | succ f ih =>
    intro i resp err log att
    by_cases hs : attemptSuccess (oracle i).1 (oracle i).2 = true
    · rw [workerLoop_success_step oracle p kl n i f resp err log att hs]
      exact ⟨[], by simp⟩
    · rw [workerLoop_fail_step oracle p kl n i f resp err log att
        (by simpa using hs)]
      rcases ih (i + 1) (oracle i).2 (some (classifyErr (oracle i).1 (oracle i).2))
        (if kl then log ++ [mkEntry p n i (classifyErr (oracle i).1 (oracle i).2)] else log)
        (att + 1) with ⟨t, ht⟩
      by_cases hkl : kl
      · rw [hkl] at ht ⊢
        simp only [if_pos rfl] at ht ⊢
        exact ⟨mkEntry p n i (classifyErr (oracle i).1 (oracle i).2) :: t, by
          rw [ht]; simp⟩
      · have hkl' : kl = false := by simpa using hkl
        rw [hkl'] at ht ⊢
        simp only [Bool.false_eq_true, if_false] at ht ⊢
        exact ⟨t, ht⟩

/-- With `KeepLog` disabled a worker appends nothing to the log. -/
theorem workerLoop_keepLog_false (oracle : Nat → Option String × HTTPResponse)
    (p : Params) (n : Int) :
    ∀ (fuel i : Nat) (resp : HTTPResponse) (err : Option String)
      (log : List ErrEntry) (att : Nat),
      (workerLoop oracle p false n i fuel resp err log att).entries = log := by
  intro fuel
  induction fuel with
  | zero => intro i resp err log att; simp [workerLoop]
  | succ f ih =>
    intro i resp err log att
    by_cases hs : attemptSuccess (oracle i).1 (oracle i).2 = true
    · rw [workerLoop_success_step oracle p false n i f resp err log att hs]
    · rw [workerLoop_fail_step oracle p false n i f resp err log att (by simpa using hs)]
      rw [if_neg (by simp)]
      exact ih (i + 1) (oracle i).2 _ log (att + 1)

end Pester

namespace Pester

/-- The function `wrap64` is the identity on values already in the `int64` range. -/
theorem wrap64_eq_self {a : Int} (h1 : -(2 ^ 63) ≤ a) (h2 : a < 2 ^ 63) :
    wrap64 a = a := by
  unfold wrap64
  rw [Int.emod_eq_of_lt (by omega) (by omega)]
  omega

/-- Basic bounds on Go's truncating division by 3 of a nonnegative value. -/
theorem tdiv3_bounds {a : Int} (h : 0 ≤ a) :
    0 ≤ Int.tdiv a 3 ∧ 3 * Int.tdiv a 3 ≤ a ∧ a ≤ 3 * Int.tdiv a 3 + 2 := by
  obtain ⟨m, rfl⟩ := Int.eq_ofNat_of_zero_le h
  have : Int.tdiv (↑m) 3 = ((m / 3 : Nat) : Int) := rfl
  rw [this]
  have h3 : 3 * (m / 3) ≤ m ∧ m ≤ 3 * (m / 3) + 2 := by omega
  push_cast
  omega

/-- A `foldl` of string appends equals the accumulator followed by the
joined pieces. -/
theorem foldl_append_join {α : Type} (f : α → String) :
    ∀ (l : List α) (a : String),
      l.foldl (fun r e => r ++ f e) a = a ++ String.join (l.map f) := by
  intro l
  induction l with
  | nil => intro a; simp [String.join, String.append_empty]
  | cons x xs ih =>
    intro a
    simp only [List.foldl_cons, List.map_cons]
    rw [ih (a ++ f x)]
    have : String.join (f x :: xs.map f) = f x ++ String.join (xs.map f) := by
      show List.foldl (fun r s => r ++ s) "" (f x :: xs.map f) = _
      rw [List.foldl_cons]
      have h2 : ∀ (ys : List String) (s : String),
          ys.foldl (fun r t => r ++ t) s = s ++ String.join ys := by
        intro ys
        induction ys with
        | nil => intro s; simp [String.join, String.append_empty]
        | cons y ys ihy =>
          intro s
          rw [List.foldl_cons, ihy (s ++ y)]
          show s ++ y ++ String.join ys = s ++ List.foldl (fun r t => r ++ t) "" (y :: ys)
          rw [List.foldl_cons, ihy ("" ++ y), String.empty_append, String.append_assoc]
      rw [h2 (xs.map f) ("" ++ f x), String.empty_append]
    rw [this, String.append_assoc]

end Pester

namespace Pester

/-- A `LogString` line for an entry whose interpolated fields are
newline-free contains exactly one newline (its terminator). -/
theorem fmtErrEntry_count_newline (e : ErrEntry) (h : newlineFree e) :
    (fmtErrEntry e).data.count '\n' = 1 := by
  obtain ⟨h1, h2, h3, h4, h5, h6, h7⟩ := h
  unfold fmtErrEntry
  simp only [String.data_append, List.count_append]
  rw [List.count_eq_zero.mpr h1, List.count_eq_zero.mpr h2, List.count_eq_zero.mpr h3,
      List.count_eq_zero.mpr h4, List.count_eq_zero.mpr h5, List.count_eq_zero.mpr h6,
      List.count_eq_zero.mpr h7]
  decide

end Pester

namespace Pester

/-- Folding `LogString`'s line formatter over newline-free entries adds
exactly one newline per entry to the accumulator. -/
theorem logString_fold_count (log : List ErrEntry) :
    ∀ (acc : String), (∀ e ∈ log, newlineFree e) →
      (log.foldl (fun r e => r ++ fmtErrEntry e) acc).data.count '\n' =
        acc.data.count '\n' + log.length := by
  induction log with
  | nil => intro acc _; simp
  | cons e l ih =>
    intro acc h
    rw [List.foldl_cons, ih (acc ++ fmtErrEntry e) (fun x hx => h x (List.mem_cons_of_mem e hx))]
    rw [String.data_append, List.count_append,
        fmtErrEntry_count_newline e (h e (List.mem_cons_self e l))]
    simp only [List.length_cons]
    omega

end Pester

namespace Pester

/-- C8 (amended): the fixed (default) backoff is the constant 1 second
for every attempt index; the linear backoff at index `i` is exactly `i`
seconds while `i * 10^9` fits in `int64` (`i ≤ 9223372036`); the
exponential backoff at index `i` is exactly `2^i` seconds while
`2^i * 10^9` fits in `int64` (`i ≤ 33`). -/
theorem c8_backoff_values :
    (∀ i : Int, DefaultBackoff i = second) ∧
    (∀ i : Int, 0 ≤ i → i ≤ 9223372036 → LinearBackoff i = i * second) ∧
    (∀ n : Nat, n ≤ 33 → ExponentialBackoff (n : Int) = 2 ^ n * second) := by
  refine ⟨?_, ?_, ?_⟩
  · intro i
    show wrap64 (1 * second) = second
    rw [wrap64_eq_self (a := 1 * second) (by norm_num [second]) (by norm_num [second])]
    norm_num
  · intro i h0 h1
    unfold LinearBackoff second
    rw [wrap64_eq_self (by omega) (by omega)]
  · intro n hn
    unfold ExponentialBackoff pow2AsInt64
    rw [if_neg (by omega), if_pos (by omega)]
    have htn : ((n : Int)).toNat = n := Int.toNat_natCast n
    rw [htn]
    have hp : (2 : Int) ^ n ≤ 2 ^ 33 := pow_le_pow_right₀ (by norm_num) hn
    have hp0 : (0 : Int) ≤ 2 ^ n := by positivity
    have hb : 2 ^ n * second ≤ 2 ^ 33 * second := by
      unfold second
      nlinarith [hp, hp0]
    have hb0 : (0 : Int) ≤ 2 ^ n * second := by
      unfold second
      positivity
    rw [wrap64_eq_self (by unfold second at hb0 ⊢; omega)
      (by unfold second at hb ⊢; norm_num at hb ⊢; omega)]

/-- C8 witness at concrete indices 7. -/
theorem c8_backoff_values_witness :
    DefaultBackoff 7 = second ∧ LinearBackoff 7 = 7 * second ∧
    ExponentialBackoff ((7 : Nat) : Int) = 2 ^ (7 : Nat) * second :=
  ⟨c8_backoff_values.1 7,
   c8_backoff_values.2.1 7 (by norm_num) (by norm_num),
   c8_backoff_values.2.2 7 (by norm_num)⟩

/-- C8 counterexample: at attempt index 34 the exponential backoff's
nanosecond count `2^34 * 10^9` exceeds `int64`, wraps, and the returned
duration is negative — not `2^34` seconds. -/
theorem c8_counterexample :
    ExponentialBackoff 34 < 0 ∧ ExponentialBackoff 34 ≠ 2 ^ (34 : Nat) * second := by
  decide

end Pester

namespace Pester

/-- C7 (amended): for a jittered backoff whose base is `B = i * 1000`
milliseconds with `0 ≤ i ≤ 2^32` (so no 64-bit overflow occurs) and any
possible random draw `0 ≤ j ≤ maxJitter`, the computed millisecond count
lies in `[max(1, B - B/3), max(1, B + B/3)]` (division truncating), is
strictly positive (a value ≤ 0 is clamped to exactly 1 millisecond), and
the returned duration is that count in milliseconds. -/
theorem c7_jitter_bounds (i j : Int) (add : Bool)
    (h0 : 0 ≤ i) (h1 : i ≤ 4294967296) (hj0 : 0 ≤ j) (hj1 : j ≤ maxJitterOf i) :
    max 1 (i * 1000 - Int.tdiv (i * 1000) 3) ≤ jitterMs i j add ∧
    jitterMs i j add ≤ max 1 (i * 1000 + Int.tdiv (i * 1000) 3) ∧
    0 < jitterMs i j add ∧
    jitter i j add = jitterMs i j add * millisecond ∧
    0 < jitter i j add := by
  have hms : wrap64 (i * 1000) = i * 1000 := wrap64_eq_self (by omega) (by omega)
  unfold maxJitterOf at hj1
  rw [hms] at hj1
  obtain ⟨hq0, hq1, hq2⟩ := tdiv3_bounds (show (0 : Int) ≤ i * 1000 by omega)
  have hvb : max 1 (i * 1000 - Int.tdiv (i * 1000) 3) ≤ jitterMs i j add ∧
      jitterMs i j add ≤ max 1 (i * 1000 + Int.tdiv (i * 1000) 3) ∧
      0 < jitterMs i j add := by
    cases add with
    | true =>
      have hv : jitterMs i j true = if i * 1000 + j ≤ 0 then 1 else i * 1000 + j := by
        show (if wrap64 (wrap64 (i * 1000) + j) ≤ 0 then 1
              else wrap64 (wrap64 (i * 1000) + j)) = _
        rw [hms, wrap64_eq_self (a := i * 1000 + j) (by omega) (by omega)]
      rw [hv]
      split
      · omega
      · omega
    | false =>
      have hv : jitterMs i j false = if i * 1000 - j ≤ 0 then 1 else i * 1000 - j := by
        show (if wrap64 (wrap64 (i * 1000) - j) ≤ 0 then 1
              else wrap64 (wrap64 (i * 1000) - j)) = _
        rw [hms, wrap64_eq_self (a := i * 1000 - j) (by omega) (by omega)]
      rw [hv]
      split
      · omega
      · omega
  refine ⟨hvb.1, hvb.2.1, hvb.2.2, ?_, ?_⟩
  · unfold jitter
    rw [wrap64_eq_self (a := jitterMs i j add * millisecond)
      (by unfold millisecond; omega) (by unfold millisecond; omega)]
  · unfold jitter
    rw [wrap64_eq_self (a := jitterMs i j add * millisecond)
      (by unfold millisecond; omega) (by unfold millisecond; omega)]
    unfold millisecond
    omega

end Pester

namespace Pester

/-- C7 witness at base `i = 1` (1000 ms), draw `j = 0`, subtracting. -/
theorem c7_jitter_bounds_witness :
    max 1 (1 * 1000 - Int.tdiv (1 * 1000) 3) ≤ jitterMs 1 0 false ∧
    jitterMs 1 0 false ≤ max 1 (1 * 1000 + Int.tdiv (1 * 1000) 3) ∧
    0 < jitterMs 1 0 false ∧
    jitter 1 0 false = jitterMs 1 0 false * millisecond ∧
    0 < jitter 1 0 false :=
  c7_jitter_bounds 1 0 false (by norm_num) (by norm_num) (by norm_num) (by decide)

/-- C7 counterexample: the linear-jitter backoff at attempt index 0 has
base `B = 0` ms; the only possible draw is `j = 0`, the code returns
exactly 1 ms, yet the claimed interval `[max(1, B - B/3), B + B/3]`
= `[1, 0]` is empty — the result exceeds the claimed upper bound. -/
theorem c7_counterexample :
    maxJitterOf 0 = 0 ∧ jitterMs 0 0 true = 1 ∧ jitterMs 0 0 false = 1 ∧
    LinearJitterBackoff 0 0 false = millisecond ∧
    ¬(jitterMs 0 0 false ≤ 0 * 1000 + Int.tdiv (0 * 1000) 3) := by
  decide

/-- C1 counterexample: with `Concurrency = 5`, a HEAD call (an
idempotent-safe verb) gets effective concurrency 1, not the configured 5
the claim requires; and a generic `Do` whose request method is GET gets
effective concurrency 5, not the 1 the claim requires. -/
theorem c1_counterexample :
    effectiveConcurrency { DefaultClient with Concurrency := 5 }
      (headParams "http://example.com") = 1 ∧
    claimedEffectiveConcurrency (headParams "http://example.com").verb 5 = 5 ∧
    effectiveConcurrency { DefaultClient with Concurrency := 5 }
      (headParams "http://example.com") ≠
      claimedEffectiveConcurrency (headParams "http://example.com").verb 5 ∧
    effectiveConcurrency { DefaultClient with Concurrency := 5 }
      (doParams "GET" "http://example.com" BodySrc.nobody) = 5 := by
  decide

/-- C1 (amended): the effective concurrency is the configured
`Concurrency` exactly when the `params` verb string is `"GET"` and 1
otherwise: `Get` calls use the configured value, `Head`, `Post` and
`PostForm` calls always use 1, and a generic `Do` uses the configured
value precisely when the request's own method is `"GET"`. -/
theorem c1_effective_concurrency (c : Client) (u m : String) (rb b : BodySrc) :
    effectiveConcurrency c (getParams u) = c.Concurrency ∧
    effectiveConcurrency c (headParams u) = 1 ∧
    effectiveConcurrency c (postParams u b) = 1 ∧
    effectiveConcurrency c (postFormParams u) = 1 ∧
    effectiveConcurrency c (doParams m u rb) =
      (if m = "GET" then c.Concurrency else 1) := by
  refine ⟨?_, ?_, ?_, ?_, ?_⟩
  · show (if ("GET" : String) ≠ "GET" then (1 : Int) else c.Concurrency) = c.Concurrency
    rw [if_neg (by decide)]
  · show (if ("HEAD" : String) ≠ "GET" then (1 : Int) else c.Concurrency) = 1
    rw [if_pos (by decide)]
  · show (if ("POST" : String) ≠ "GET" then (1 : Int) else c.Concurrency) = 1
    rw [if_pos (by decide)]
  · show (if ("POST" : String) ≠ "GET" then (1 : Int) else c.Concurrency) = 1
    rw [if_pos (by decide)]
  · show (if m ≠ "GET" then (1 : Int) else c.Concurrency) =
      if m = "GET" then c.Concurrency else 1
    by_cases hm : m = "GET"
    · rw [if_neg (by simp [hm]), if_pos hm]
    · rw [if_pos hm, if_neg hm]

end Pester

namespace Pester

/-- C2: an attempt is classified a success exactly when the transport
error is nil and the status code is strictly below 400; with no
transport error and status ≥ 400 the attempt is a failure whose error is
synthesized from the status text, and that synthesized error is what the
worker records in its first `ErrEntry`. -/
theorem c2_outcome_classification :
    (∀ (e : Option String) (r : HTTPResponse),
      attemptSuccess e r = true ↔ e = none ∧ r.statusCode < 400) ∧
    (∀ r : HTTPResponse, 400 ≤ r.statusCode →
      attemptSuccess none r = false ∧ classifyErr none r = r.status) ∧
    (∀ (oracle : Nat → Option String × HTTPResponse) (p : Params)
      (n m : Int) (r : HTTPResponse),
      1 ≤ m → oracle 0 = (none, r) → 400 ≤ r.statusCode →
      (runWorker oracle p true n m).entries.head? =
        some (mkEntry p n 0 r.status)) := by
  refine ⟨?_, ?_, ?_⟩
  · intro e r
    cases e <;> simp [attemptSuccess]
  · intro r h
    constructor
    · simp [attemptSuccess]
      omega
    · rfl
  · intro oracle p n m r hm h0 hst
    unfold runWorker
    obtain ⟨f, hf⟩ : ∃ f, m.toNat = f + 1 := ⟨m.toNat - 1, by omega⟩
    rw [hf]
    have hfail : attemptSuccess (oracle 0).1 (oracle 0).2 = false := by
      rw [h0]
      simp [attemptSuccess]
      omega
    rw [workerLoop_fail_step oracle p true n 0 f emptyResponse none [] 0 hfail]
    rw [if_pos rfl]
    obtain ⟨tail, ht⟩ := workerLoop_entries_extend oracle p true n f 1 (oracle 0).2
      (some (classifyErr (oracle 0).1 (oracle 0).2))
      ([] ++ [mkEntry p n 0 (classifyErr (oracle 0).1 (oracle 0).2)]) 1
    rw [ht, h0]
    simp [classifyErr]

/-- C2 witness: a 500 response with no transport error is a failure, its
error is the status text, and the first log entry records it. -/
theorem c2_outcome_classification_witness :
    (attemptSuccess none { statusCode := 500, status := "500 Internal Server Error" } = false ∧
     classifyErr none { statusCode := 500, status := "500 Internal Server Error" } =
       "500 Internal Server Error") ∧
    (runWorker (fun _ => (none, { statusCode := 500, status := "500 Internal Server Error" }))
      (getParams "http://u") true 0 3).entries.head? =
      some (mkEntry (getParams "http://u") 0 0 "500 Internal Server Error") :=
  ⟨c2_outcome_classification.2.1 _ (by norm_num),
   c2_outcome_classification.2.2 _ _ 0 3 _ (by norm_num) rfl (by norm_num)⟩

end Pester

namespace Pester

/-- C3 counterexample: worker 1, `maxRetries = 2`, every attempt failing
with a transport error.  The emitted `result` carries the last error but
its `req`/`retry` fields are the zero values `0`/`0` — not the worker's
index 1 — and the orchestrator therefore records `SuccessReqNum = 0`. -/
theorem c3_counterexample :
    (runWorker (fun _ => (some "boom", emptyResponse)) (getParams "http://u")
      true 1 2).result.err = some "boom" ∧
    (runWorker (fun _ => (some "boom", emptyResponse)) (getParams "http://u")
      true 1 2).result.req = 0 ∧
    (runWorker (fun _ => (some "boom", emptyResponse)) (getParams "http://u")
      true 1 2).result.retry = 0 ∧
    (runWorker (fun _ => (some "boom", emptyResponse)) (getParams "http://u")
      true 1 2).result.req ≠ 1 ∧
    (finishPester DefaultClient
      (runWorker (fun _ => (some "boom", emptyResponse)) (getParams "http://u")
        true 1 2).result).1.SuccessReqNum ≠ 1 := by
  decide

/-- C3 (amended): a worker that exhausts its retries emits a `result`
carrying the last attempt's classified error whose `req`/`retry` tags
are the zero values `0`/`0` (not the worker's index); a worker whose
first success is attempt `k` emits a `result` tagged with its index and
`k`; and the orchestrator copies the winning `result`'s tag fields into
`SuccessReqNum`/`SuccessRetryNum` — so those fields identify the
producing worker and retry only when the winner was a success. -/
theorem c3_winner_tags :
    (∀ (oracle : Nat → Option String × HTTPResponse) (p : Params) (n m : Int),
      1 ≤ m → allFail oracle m.toNat →
      (runWorker oracle p true n m).result.err =
        some (classifyErr (oracle (m.toNat - 1)).1 (oracle (m.toNat - 1)).2) ∧
      (runWorker oracle p true n m).result.req = 0 ∧
      (runWorker oracle p true n m).result.retry = 0) ∧
    (∀ (oracle : Nat → Option String × HTTPResponse) (p : Params) (kl : Bool)
      (n m : Int) (k : Nat),
      (k : Int) < m →
      (∀ i < k, attemptSuccess (oracle i).1 (oracle i).2 = false) →
      attemptSuccess (oracle k).1 (oracle k).2 = true →
      (runWorker oracle p kl n m).result =
        { resp := (oracle k).2, err := (oracle k).1, req := n, retry := (k : Int) }) ∧
    (∀ (c : Client) (res : Result),
      (finishPester c res).1.SuccessReqNum = res.req ∧
      (finishPester c res).1.SuccessRetryNum = res.retry) := by
  refine ⟨?_, ?_, ?_⟩
  · intro oracle p n m hm hfail
    unfold runWorker
    obtain ⟨f, hf⟩ : ∃ f, m.toNat = f + 1 := ⟨m.toNat - 1, by omega⟩
    rw [hf]
    rw [workerLoop_allFail_run oracle p n f 0 emptyResponse none [] 0
      (fun k hk1 hk2 => hfail k (by omega))]
    simp

  · intro oracle p kl n m k hk hfail hsucc
    unfold runWorker
    have := workerLoop_firstSuccess_run oracle p kl n k m.toNat 0 emptyResponse none [] 0
      (by omega) (fun j hj1 hj2 => hfail j (by omega)) (by simpa using hsucc)
    simpa using this
  · intro c res
    exact ⟨rfl, rfl⟩

/-- C3 witness: the exhausted case at worker 1 with two failing attempts
and the success case at worker 2 succeeding immediately. -/
theorem c3_winner_tags_witness :
    ((runWorker (fun _ => (some "boom", emptyResponse)) (getParams "http://u")
        true 1 2).result.err = some "boom" ∧
     (runWorker (fun _ => (some "boom", emptyResponse)) (getParams "http://u")
        true 1 2).result.req = 0 ∧
     (runWorker (fun _ => (some "boom", emptyResponse)) (getParams "http://u")
        true 1 2).result.retry = 0) ∧
    (runWorker (fun _ => (none, { statusCode := 200, status := "200 OK" }))
      (getParams "http://u") false 2 3).result =
      { resp := { statusCode := 200, status := "200 OK" }, err := none,
        req := 2, retry := 0 } :=
  ⟨c3_winner_tags.1 _ _ 1 2 (by norm_num)
     (by intro i hi; exact (by decide : attemptSuccess (some "boom") emptyResponse = false)),
   c3_winner_tags.2.1 _ _ false 2 3 0 (by norm_num)
     (by intro i hi; exact absurd hi (Nat.not_lt_zero i)) (by decide)⟩

end Pester

namespace Pester

/-- C4: with `KeepLog` enabled, a worker whose `maxRetries = N ≥ 1`
attempts all fail appends exactly `N` `ErrEntry` records — one per
attempt, in order, tagged with its index and the retry index — before
emitting its exhausted-failure outcome, and when that outcome wins the
error surfaced to the caller is the last (N-th) attempt's error. -/
theorem c4_exhausted_log_and_error (oracle : Nat → Option String × HTTPResponse)
    (p : Params) (c : Client) (n m : Int)
    (hm : 1 ≤ m) (hfail : allFail oracle m.toNat) :
    (runWorker oracle p true n m).entries =
      (List.range m.toNat).map
        (fun k => mkEntry p n k (classifyErr (oracle k).1 (oracle k).2)) ∧
    (runWorker oracle p true n m).entries.length = m.toNat ∧
    (finishPester c (runWorker oracle p true n m).result).2.2 =
      some (classifyErr (oracle (m.toNat - 1)).1 (oracle (m.toNat - 1)).2) := by
  unfold runWorker
  obtain ⟨f, hf⟩ : ∃ f, m.toNat = f + 1 := ⟨m.toNat - 1, by omega⟩
  rw [hf]
  rw [workerLoop_allFail_run oracle p n f 0 emptyResponse none [] 0
    (fun k hk1 hk2 => hfail k (by omega))]
  refine ⟨?_, ?_, ?_⟩
  · simp [List.range_eq_range']
  · simp
  · simp [finishPester]

/-- C4 witness: two failing attempts with `maxRetries = 2` produce
exactly 2 log entries and surface the last error. -/
theorem c4_exhausted_log_and_error_witness :
    (runWorker (fun _ => (some "boom", emptyResponse)) (getParams "http://u")
      true 0 2).entries.length = (2 : Int).toNat ∧
    (finishPester DefaultClient
      (runWorker (fun _ => (some "boom", emptyResponse)) (getParams "http://u")
        true 0 2).result).2.2 = some "boom" :=
  ⟨(c4_exhausted_log_and_error (fun _ => (some "boom", emptyResponse))
      (getParams "http://u") DefaultClient 0 2 (by norm_num)
      (by intro i hi; exact (by decide : attemptSuccess (some "boom") emptyResponse = false))).2.1,
   (c4_exhausted_log_and_error (fun _ => (some "boom", emptyResponse))
      (getParams "http://u") DefaultClient 0 2 (by norm_num)
      (by intro i hi; exact (by decide : attemptSuccess (some "boom") emptyResponse = false))).2.2⟩

end Pester

namespace Pester

/-- C5: when `MaxRetries` is 0 or negative the retry loop never runs:
no HTTP attempt is made, nothing is logged, and the call terminates at
once returning the empty response and a nil error (an empty result). -/
theorem c5_zero_retries (c : Client) (p : Params)
    (oracle : Nat → Option String × HTTPResponse) (brs bbs : List Nat)
    (hm : c.MaxRetries ≤ 0) (hr : readAll p.reqBody = Except.ok brs)
    (hb : readAll p.body = Except.ok bbs) :
    (pesterRun c p oracle).attempts = 0 ∧
    (pesterRun c p oracle).resp = emptyResponse ∧
    (pesterRun c p oracle).err = none ∧
    (pesterRun c p oracle).client.ErrLog = c.ErrLog := by
  have h0 : c.MaxRetries.toNat = 0 := Int.toNat_of_nonpos hm
  unfold pesterRun
  rw [hr, hb]
  unfold runWorker
  rw [h0]
  simp [workerLoop, finishPester]

/-- C5 witness: `MaxRetries = 0` on a POST returns the empty result
without attempts. -/
theorem c5_zero_retries_witness :
    (pesterRun { DefaultClient with MaxRetries := 0 }
      (postParams "http://u" BodySrc.nobody)
      (fun _ => (some "boom", emptyResponse))).attempts = 0 ∧
    (pesterRun { DefaultClient with MaxRetries := 0 }
      (postParams "http://u" BodySrc.nobody)
      (fun _ => (some "boom", emptyResponse))).resp = emptyResponse ∧
    (pesterRun { DefaultClient with MaxRetries := 0 }
      (postParams "http://u" BodySrc.nobody)
      (fun _ => (some "boom", emptyResponse))).err = none ∧
    (pesterRun { DefaultClient with MaxRetries := 0 }
      (postParams "http://u" BodySrc.nobody)
      (fun _ => (some "boom", emptyResponse))).client.ErrLog =
      ({ DefaultClient with MaxRetries := 0 } : Client).ErrLog :=
  c5_zero_retries { DefaultClient with MaxRetries := 0 }
    (postParams "http://u" BodySrc.nobody)
    (fun _ => (some "boom", emptyResponse)) [] [] (by norm_num) rfl rfl

end Pester

namespace Pester

/-- C6: a body that cannot be buffered makes the call return the
body-read error immediately: no worker is spawned, no HTTP attempt is
made, and the client (in particular its `ErrLog`) is untouched. -/
theorem c6_body_read_error :
    (∀ (c : Client) (p : Params) (oracle : Nat → Option String × HTTPResponse)
      (msg : String), p.reqBody = BodySrc.failing msg →
      pesterRun c p oracle =
        { client := c, resp := emptyResponse,
          err := some "error reading request body", workers := 0, attempts := 0 }) ∧
    (∀ (c : Client) (p : Params) (oracle : Nat → Option String × HTTPResponse)
      (msg : String) (bs : List Nat),
      readAll p.reqBody = Except.ok bs → p.body = BodySrc.failing msg →
      pesterRun c p oracle =
        { client := c, resp := emptyResponse,
          err := some "error reading body", workers := 0, attempts := 0 }) := by
  constructor
  · intro c p oracle msg h
    unfold pesterRun
    rw [h]
    rfl
  · intro c p oracle msg bs hr hb
    unfold pesterRun
    rw [hr, hb]
    rfl

/-- C6 witness: a failing request body on `Do` and a failing body reader
on `Post` each return the corresponding read error with zero workers,
zero attempts and an unchanged client. -/
theorem c6_body_read_error_witness :
    pesterRun DefaultClient (doParams "POST" "http://u" (BodySrc.failing "disk error"))
      (fun _ => (none, emptyResponse)) =
      { client := DefaultClient, resp := emptyResponse,
        err := some "error reading request body", workers := 0, attempts := 0 } ∧
    pesterRun DefaultClient (postParams "http://u" (BodySrc.failing "disk error"))
      (fun _ => (none, emptyResponse)) =
      { client := DefaultClient, resp := emptyResponse,
        err := some "error reading body", workers := 0, attempts := 0 } :=
  ⟨c6_body_read_error.1 _ _ _ "disk error" rfl,
   c6_body_read_error.2 _ _ _ "disk error" [] rfl rfl⟩

end Pester

namespace Pester

/-- A client with an empty `ErrLog` renders the empty string. -/
theorem logString_of_errLog_nil {c : Client} (h : c.ErrLog = []) :
    LogString c = "" := by
  unfold LogString
  rw [h]
  rfl

/-- Calling `Client.log` leaves a client with `KeepLog = false` unchanged. -/
theorem log_of_keepLog_false {c : Client} (h : c.KeepLog = false) (e : ErrEntry) :
    c.log e = c := by
  unfold Client.log
  rw [h]
  simp

/-- Along the single-worker path, a client with `KeepLog = false` and an
empty `ErrLog` still has an empty `ErrLog` after the call. -/
theorem pesterRun_errLog_keepLog_false (c : Client) (p : Params)
    (oracle : Nat → Option String × HTTPResponse)
    (hk : c.KeepLog = false) (he : c.ErrLog = []) :
    (pesterRun c p oracle).client.ErrLog = [] := by
  unfold pesterRun
  cases hr : readAll p.reqBody with
  | error msg => exact he
  | ok bs =>
    cases hb : readAll p.body with
    | error msg => exact he
    | ok bs2 =>
      have hw : (runWorker oracle p c.KeepLog 0 c.MaxRetries).entries = [] := by
        rw [hk]
        exact workerLoop_keepLog_false oracle p 0 c.MaxRetries.toNat 0
          emptyResponse none [] 0
      simp [finishPester, hw, he]

/-- C9: `LogString` renders the error log as the in-order concatenation
of one formatted line per recorded entry (timestamp, method, verb, URL,
worker index, retry index, error), yields the empty string on an empty
log, and — whenever no interpolated field contains a newline — contains
exactly one newline per recorded entry. -/
theorem c9_logstring_render (c : Client) :
    LogString c = String.join (c.ErrLog.map fmtErrEntry) ∧
    (c.ErrLog = [] → LogString c = "") ∧
    ((∀ e ∈ c.ErrLog, newlineFree e) →
      (LogString c).data.count '\n' = c.ErrLog.length) := by
  refine ⟨?_, ?_, ?_⟩
  · unfold LogString
    rw [foldl_append_join fmtErrEntry c.ErrLog "", String.empty_append]
  · intro h
    exact logString_of_errLog_nil h
  · intro h
    unfold LogString
    rw [logString_fold_count c.ErrLog "" h]
    rw [show (("" : String).data.count '\n') = 0 from by decide]
    omega

/-- C9 witness: a log with two newline-free entries renders with exactly
two lines. -/
theorem c9_logstring_render_witness :
    (∀ e ∈ sampleLogClient.ErrLog, newlineFree e) ∧
    (LogString sampleLogClient).data.count '\n' = sampleLogClient.ErrLog.length :=
  ⟨by decide, (c9_logstring_render sampleLogClient).2.2 (by decide)⟩

end Pester

namespace Pester

/-- C10: every client built by `New` has `KeepLog = false`, so no
`ErrEntry` is ever appended to its `ErrLog` — neither by any sequence of
`Client.log` calls nor by any call through the package-level wrappers
`Do`/`Get`/`Head`/`Post`/`PostForm` (which construct their client with
`New`), however the attempts fail — and its `LogString` stays empty. -/
theorem c10_new_clients_never_log :
    New.KeepLog = false ∧
    (∀ es : List ErrEntry, (es.foldl Client.log New).ErrLog = []) ∧
    (∀ (u m : String) (rb b : BodySrc)
      (oracle : Nat → Option String × HTTPResponse),
      (DoWrapper m u rb oracle).client.ErrLog = [] ∧
      LogString (DoWrapper m u rb oracle).client = "" ∧
      (GetWrapper u oracle).client.ErrLog = [] ∧
      LogString (GetWrapper u oracle).client = "" ∧
      (HeadWrapper u oracle).client.ErrLog = [] ∧
      LogString (HeadWrapper u oracle).client = "" ∧
      (PostWrapper u b oracle).client.ErrLog = [] ∧
      LogString (PostWrapper u b oracle).client = "" ∧
      (PostFormWrapper u oracle).client.ErrLog = [] ∧
      LogString (PostFormWrapper u oracle).client = "") := by
  have hfold : ∀ es : List ErrEntry, es.foldl Client.log New = New := by
    intro es
    induction es with
    | nil => rfl
    | cons e l ih =>
      rw [List.foldl_cons, log_of_keepLog_false rfl e]
      exact ih
  refine ⟨rfl, fun es => by rw [hfold es]; rfl, ?_⟩
  intro u m rb b oracle
  have hdo := pesterRun_errLog_keepLog_false New (doParams m u rb) oracle rfl rfl
  have hget := pesterRun_errLog_keepLog_false New (getParams u) oracle rfl rfl
  have hhead := pesterRun_errLog_keepLog_false New (headParams u) oracle rfl rfl
  have hpost := pesterRun_errLog_keepLog_false New (postParams u b) oracle rfl rfl
  have hpf := pesterRun_errLog_keepLog_false New (postFormParams u) oracle rfl rfl
  exact ⟨hdo, logString_of_errLog_nil hdo, hget, logString_of_errLog_nil hget,
    hhead, logString_of_errLog_nil hhead, hpost, logString_of_errLog_nil hpost,
    hpf, logString_of_errLog_nil hpf⟩

end Pester
